import Mathlib

/-!
Formal model of the PyLearn AI-tutor request pipeline (`js/tutor-flow.js`).

The pipeline is a small node/flow graph: context collection, prompt
construction, backend dispatch, response formatting and keyword fallback.
JavaScript strings are modelled as `String`/`List Char`; the regex-based
markdown conversion is modelled by explicit scanning functions that follow
the JavaScript regular-expression semantics (leftmost match, lazy bodies,
global continuation after each match); external effects (fetch, the WebLLM
engine) are modelled as oracle fields of an environment record, with a
thrown JavaScript exception modelled as `Except.error`.
-/

namespace TutorFlow

/-! ## List scanning primitives

`splitOnce pat cs` finds the leftmost occurrence of `pat` in `cs` and
returns the part before it and the part after it.  This is the semantic
core of `String.prototype.includes` and of the lazy fenced-block regexes
of `FormatResponseNode.exec`. -/

def splitOnce (pat : List Char) : List Char → Option (List Char × List Char)
  | [] => if pat = [] then some ([], []) else none
  | c :: rest =>
    if pat.isPrefixOf (c :: rest) then
      some ([], (c :: rest).drop pat.length)
    else
      match splitOnce pat rest with
      | some (pre, post) => some (c :: pre, post)
      | none => none

theorem splitOnce_eq_some (pat : List Char) :
    ∀ cs pre post, splitOnce pat cs = some (pre, post) → cs = pre ++ pat ++ post := by
  intro cs
  induction cs with
  | nil =>
    intro pre post h
    by_cases hp : pat = ([] : List Char) <;>
      simp [splitOnce, hp] at h
    simp [hp, h.1, h.2]
  | cons c rest ih =>
    intro pre post h
    simp only [splitOnce] at h
    by_cases hpre : pat.isPrefixOf (c :: rest)
    · rw [if_pos hpre] at h
      rw [List.isPrefixOf_iff_prefix] at hpre
      obtain ⟨t, ht⟩ := hpre
      simp at h
      obtain ⟨h1, h2⟩ := h
      subst h1
      rw [← h2, ← ht]
      simp
    · rw [if_neg hpre] at h
      cases hrec : splitOnce pat rest with
      | none => rw [hrec] at h; simp at h
      | some pp =>
        obtain ⟨pre', post'⟩ := pp
        rw [hrec] at h
        simp at h
        obtain ⟨h1, h2⟩ := h
        subst h1
        subst h2
        simp [ih pre' post' hrec]

theorem splitOnce_eq_none (pat : List Char) :
    ∀ cs, splitOnce pat cs = none → ∀ pre post, cs ≠ pre ++ pat ++ post := by
  intro cs
  induction cs with
  | nil =>
    intro h pre post heq
    by_cases hp : pat = ([] : List Char)
    · simp [splitOnce, hp] at h
    · have hlen := congrArg List.length heq
      simp at hlen
      exact hp (List.length_eq_zero.mp (by omega))
  | cons c rest ih =>
    intro h pre post heq
    simp only [splitOnce] at h
    by_cases hpre : pat.isPrefixOf (c :: rest)
    · rw [if_pos hpre] at h; simp at h
    · rw [if_neg hpre] at h
      cases pre with
      | nil =>
        apply hpre
        rw [List.isPrefixOf_iff_prefix]
        exact ⟨post, by simpa using heq.symm⟩
      | cons p ps =>
        cases hrec : splitOnce pat rest with
        | some pp =>
          obtain ⟨a, b⟩ := pp
          rw [hrec] at h
          simp at h
        | none =>
          have h2 : rest = ps ++ pat ++ post := by
            simp at heq
            simp [heq.2]
          exact ih hrec ps post h2

theorem splitOnce_length (pat cs pre post : List Char)
    (h : splitOnce pat cs = some (pre, post)) :
    cs.length = pre.length + pat.length + post.length := by
  have := splitOnce_eq_some pat cs pre post h
  subst this
  simp
  omega

theorem splitOnce_none_of_not_mem (pat cs : List Char) (c₀ : Char)
    (hc : c₀ ∈ pat) (hcs : c₀ ∉ cs) : splitOnce pat cs = none := by
  induction cs with
  | nil =>
    have : pat ≠ [] := fun h => by simp [h] at hc
    simp [splitOnce, this]
  | cons c rest ih =>
    have hpre : ¬ pat.isPrefixOf (c :: rest) := by
      intro h
      rw [List.isPrefixOf_iff_prefix] at h
      exact hcs (h.subset hc)
    have hrest : c₀ ∉ rest := fun h => hcs (List.mem_cons_of_mem _ h)
    simp [splitOnce, hpre, ih hrest]

/-- Substring containment on character lists; the model of
`String.prototype.includes`. -/
def containsSeq (pat cs : List Char) : Bool := (splitOnce pat cs).isSome

theorem containsSeq_iff (pat cs : List Char) :
    containsSeq pat cs = true ↔ ∃ pre post, cs = pre ++ pat ++ post := by
  unfold containsSeq
  constructor
  · intro h
    cases hs : splitOnce pat cs with
    | none => rw [hs] at h; simp at h
    | some pp => exact ⟨pp.1, pp.2, splitOnce_eq_some pat cs pp.1 pp.2 (by rw [hs])⟩
  · intro ⟨pre, post, h⟩
    cases hs : splitOnce pat cs with
    | some pp => simp
    | none => exact absurd h (splitOnce_eq_none pat cs hs pre post)

/-- JavaScript `haystack.includes(needle)`. -/
def jsIncludes (haystack needle : String) : Bool :=
  containsSeq needle.toList haystack.toList

/-- JavaScript `s.startsWith(pat)`. -/
def jsStartsWith (s pat : String) : Bool :=
  pat.toList.isPrefixOf s.toList

/-- JavaScript `s.toLowerCase()`, modelled characterwise with
`Char.toLower`. For matching against the six ASCII fallback keywords
this agrees with the Unicode mapping: the only character whose Unicode
lowercase is an ASCII letter without being an ASCII capital is the
Kelvin sign (which lowers to `k`), and no keyword contains `k`. -/
def jsToLower (s : String) : String :=
  (s.toList.map Char.toLower).asString

/-! ## Dispatch Outcome and Formatted Response -/

/-- Dispatch Outcome of `CallLLMNode.exec`: the JavaScript object
`{success: true, response}` or `{success: false, error}` (tutor-flow.js
lines 404 and 408-411). Exactly one variant, never partially populated. -/
inductive LLMResult where
  | success (response : String)
  | failure (error : String)
  deriving DecidableEq, Repr

/-- Formatted Response `{html, isError}` handed back to the UI layer. -/
structure Formatted where
  html : String
  isError : Bool
  deriving DecidableEq, Repr

/-! ## Response Formatter (`FormatResponseNode.exec`, tutor-flow.js 510-531)

Each JavaScript `.replace(regex, tpl)` with the `g` flag is modelled by a
fuel-indexed scanner; fuel equal to the input length is always enough,
since every replacement step consumes at least one input character, and a
scanner that runs out of fuel returns its input unchanged, which also
makes the no-match identity lemmas fuel-independent. -/

def fenceMark : List Char := "```".toList

def pyFenceOpen : List Char := "```python\n".toList

/-- One `.replace(/```python\n([\s\S]*?)```/g, ...)` pass: leftmost
occurrence of the open marker, lazy body up to the next close marker,
continue after the match. -/
def pyFenceF : Nat → List Char → List Char
  | 0, cs => cs
  | fuel+1, cs =>
    match splitOnce pyFenceOpen cs with
    | none => cs
    | some (pre, rest) =>
      match splitOnce fenceMark rest with
      | none => cs
      | some (body, rest2) =>
        pre ++ "<pre><code class=\"language-python\">".toList ++ body
            ++ "</code></pre>".toList ++ pyFenceF fuel rest2

/-- One `.replace(/```\n?([\s\S]*?)```/g, ...)` pass; the greedy `\n?`
eats one newline right after the opening marker when present. -/
def fenceF : Nat → List Char → List Char
  | 0, cs => cs
  | fuel+1, cs =>
    match splitOnce fenceMark cs with
    | none => cs
    | some (pre, rest) =>
      let rest1 := match rest with
        | '\n' :: t => t
        | _ => rest
      match splitOnce fenceMark rest1 with
      | none => cs
      | some (body, rest2) =>
        pre ++ "<pre><code>".toList ++ body ++ "</code></pre>".toList ++ fenceF fuel rest2

/-- One `.replace(/`([^`]+)`/g, '<code>$1</code>')` pass: at a backtick,
take the maximal nonempty run of non-backticks, require a closing
backtick; on failure the scan advances one character, as the regex
engine does. -/
def inlineCodeF : Nat → List Char → List Char
  | 0, cs => cs
  | _+1, [] => []
  | fuel+1, c :: rest =>
    if c = '`' then
      match rest.takeWhile (fun ch => ch ≠ '`'), rest.dropWhile (fun ch => ch ≠ '`') with
      | b :: body, _ :: rest3 =>
        "<code>".toList ++ (b :: body) ++ "</code>".toList ++ inlineCodeF fuel rest3
      | _, _ => c :: inlineCodeF fuel rest
    else c :: inlineCodeF fuel rest

/-- One `.replace(/\*\*([^*]+)\*\*/g, '<strong>$1</strong>')` pass: at a
double asterisk, take the maximal nonempty run of non-asterisks and
require a closing double asterisk; on failure the scan advances one
character, as the regex engine does. -/
def boldF : Nat → List Char → List Char
  | 0, cs => cs
  | _+1, [] => []
  | fuel+1, c :: rest =>
    if c = '*' then
      match rest with
      | c2 :: rest2 =>
        if c2 = '*' then
          match rest2.takeWhile (fun ch => ch ≠ '*'), rest2.dropWhile (fun ch => ch ≠ '*') with
          | b :: body, '*' :: '*' :: rest3 =>
            "<strong>".toList ++ (b :: body) ++ "</strong>".toList ++ boldF fuel rest3
          | _, _ => '*' :: boldF fuel ('*' :: rest2)
        else c :: boldF fuel rest
      | [] => c :: boldF fuel rest
    else c :: boldF fuel rest

/-- Global replacement of a literal pattern (the `/\n\n/g` and `/\n/g`
passes): leftmost, non-overlapping, continue after each replacement. -/
def replaceListF (pat repl : List Char) : Nat → List Char → List Char
  | _, [] => []
  | 0, cs => cs
  | fuel+1, c :: rest =>
    if pat.isPrefixOf (c :: rest) then
      repl ++ replaceListF pat repl fuel ((c :: rest).drop pat.length)
    else c :: replaceListF pat repl fuel rest

/-- The chained `.replace` pipeline of `FormatResponseNode.exec` on a
successful response text. -/
def formatMarkdownHtml (response : String) : String :=
  let s1 := pyFenceF response.toList.length response.toList
  let s2 := fenceF s1.length s1
  let s3 := inlineCodeF s2.length s2
  let s4 := boldF s3.length s3
  let s5 := replaceListF "\n\n".toList "</p><p>".toList s4.length s4
  let s6 := replaceListF "\n".toList "<br>".toList s5.length s5
  s6.asString

/-- `FormatResponseNode.exec` (tutor-flow.js 510-531). -/
def formatResponseExec (llmResult : LLMResult) : Formatted :=
  match llmResult with
  | .failure error => { html := "<p>⚠️ " ++ error ++ "</p>", isError := true }
  | .success response =>
    let html := formatMarkdownHtml response
    let html := if jsStartsWith html "<" then html else "<p>" ++ html ++ "</p>"
    { html := html, isError := false }

/-! ## Fallback Responder (`ErrorHandlerNode.exec`, tutor-flow.js 551-575) -/

/-- The fixed keyword table, in the source's insertion order (the
iteration order of `Object.entries` over string keys). -/
def fallbackResponses : List (String × String) := [
  ("variable", "A <strong>variable</strong> is like a labeled box that stores a value. Example: <code>name = \"Python\"</code>"),
  ("loop", "A <strong>loop</strong> repeats code multiple times. <code>for i in range(3): print(i)</code>"),
  ("function", "A <strong>function</strong> is reusable code with a name. <code>def greet(): print(\"Hello!\")</code>"),
  ("list", "A <strong>list</strong> holds multiple items: <code>fruits = [\"apple\", \"banana\"]</code>"),
  ("dictionary", "A <strong>dictionary</strong> stores key-value pairs: <code>person = \x7b\"name\": \"Ada\"\x7d</code>"),
  ("class", "A <strong>class</strong> is a blueprint for creating objects with shared properties.")]

/-- JavaScript template interpolation of a possibly-undefined value
(`ErrorHandlerNode.prep` reads `shared.llmResult?.error`, which is
`undefined` when the dispatch outcome is absent or was a success). -/
def jsTemplateShow : Option String → String
  | some s => s
  | none => "undefined"

/-- `ErrorHandlerNode.exec`: scan the keyword table in order against the
lower-cased question; first `includes` match wins. -/
def errorHandlerExec (error : Option String) (question : String) : Formatted :=
  let lowerQ := jsToLower question
  match fallbackResponses.find? (fun p => jsIncludes lowerQ p.1) with
  | some p =>
    { html := "<p>While connecting to the AI, here's a quick answer:</p><p>" ++ p.2 ++ "</p>"
      isError := false }
  | none =>
    { html := "<p>⚠️ " ++ jsTemplateShow error ++ "</p><p>Check your AI backend settings or try a different one.</p>"
      isError := true }

/-! ## Context Collector (`GetContextNode`, tutor-flow.js 150-193)

Typed model, for the pipeline: the stored progress record as the
repository's own code writes it (`app.js` `Progress`: a `modules` map
from module number to `{completed, quizScore}` and a `practiceCount`).
A second, untyped model for arbitrary stored values appears further
down with the JsVal machinery. -/

structure ModuleRec where
  completed : Bool
  deriving DecidableEq, Repr

structure ProgressRec where
  modules : List (Nat × ModuleRec)
  practiceCount : Nat
  deriving DecidableEq, Repr

/-- Context Snapshot produced by `GetContextNode.exec`. -/
structure Ctx where
  currentModule : Option Nat
  isAITrack : Bool
  currentAIWeek : Option Nat
  isStarterTrack : Bool
  currentStarterProject : Option String
  completedModules : List Nat
  practiceCount : Nat
  tutorMode : String
  deriving DecidableEq, Repr

/-- First occurrence of `pat` followed by a decimal digit; the captured
digit. Models `path.match(/module-(\d)/)` / `/ai-week-(\d)/` with
`parseInt` on the single-digit capture. -/
def findDigitAfter (pat : List Char) : List Char → Option Nat
  | [] => none
  | c :: rest =>
    if pat.isPrefixOf (c :: rest) then
      match (c :: rest).drop pat.length with
      | d :: _ => if d.isDigit then some (d.toNat - '0'.toNat) else findDigitAfter pat rest
      | [] => findDigitAfter pat rest
    else findDigitAfter pat rest

/-- Models `path.match(/starter-([a-z-]+)\.html/)`: after a literal
`starter-`, the maximal nonempty run of `[a-z-]` characters must be
followed immediately by `.html` (the character class excludes `.`,
so the regex engine cannot close the capture anywhere else). -/
def findStarterProject : List Char → Option (List Char)
  | [] => none
  | c :: rest =>
    if "starter-".toList.isPrefixOf (c :: rest) then
      let after := (c :: rest).drop "starter-".length
      let run := after.takeWhile (fun ch => ch.isLower || ch = '-')
      if run.isEmpty then findStarterProject rest
      else if ".html".toList.isPrefixOf (after.dropWhile (fun ch => ch.isLower || ch = '-')) then
        some run
      else findStarterProject rest
    else findStarterProject rest

/-- `GetContextNode.exec` on the prep result (`currentPage` is
`window.location.pathname`, `tutorMode` is `TutorConfig.mode`). -/
def getContextExec (currentPage : String) (tutorMode : String) (progress : ProgressRec) : Ctx :=
  { currentModule := findDigitAfter "module-".toList currentPage.toList
    isAITrack := jsIncludes currentPage "cs50-ai" || jsIncludes currentPage "ai-week-"
    currentAIWeek := findDigitAfter "ai-week-".toList currentPage.toList
    isStarterTrack := jsIncludes currentPage "python-starter" || jsIncludes currentPage "starter-"
    currentStarterProject := (findStarterProject currentPage.toList).map List.asString
    completedModules := (progress.modules.filter (fun p => p.2.completed)).map (·.1)
    practiceCount := progress.practiceCount
    tutorMode := tutorMode }

/-! ## Prompt Builder (`BuildPromptNode.exec`, tutor-flow.js 211-363) -/

structure Prompt where
  systemPrompt : String
  userMessage : String
  deriving DecidableEq, Repr

/-- The starter-track project display names (tutor-flow.js 220-228). -/
def projectNames : List (String × String) := [
  ("mad-libs", "Mad Libs Generator"),
  ("guessing-game", "Number Guessing Game"),
  ("rps", "Rock Paper Scissors"),
  ("calculator", "Simple Calculator"),
  ("password", "Password Generator"),
  ("ascii-art", "ASCII Art Maker"),
  ("adventure", "Text Adventure Game")]

/-- `projectNames[context.currentStarterProject] || 'Python Starter Home'`:
an absent key (or no current project) falls back to the default name. -/
def starterProjectName (currentStarterProject : Option String) : String :=
  ((currentStarterProject.bind fun k => (projectNames.find? (fun p => p.1 = k)).map (·.2)).getD
    "Python Starter Home")

def starterContextInfo (currentProjectName : String) : String :=
  "\nCURRENT CONTEXT:\n- User is viewing: " ++ currentProjectName ++
  "\n- This is PYTHON STARTER - for complete beginners with ZERO coding experience" ++
  "\n- Focus on FUN and IMMEDIATE results, not theory\n" ++
  "\nPYTHON STARTER PROJECTS (in order):" ++
  "\n1. Mad Libs Generator - print(), input(), variables, f-strings" ++
  "\n2. Number Guessing Game - while loops, if/else, random numbers, comparisons" ++
  "\n3. Rock Paper Scissors - if/elif/else chains, game logic, user choices" ++
  "\n4. Simple Calculator - functions, def keyword, return values, operators" ++
  "\n5. Password Generator - lists, random.choice(), string methods, loops" ++
  "\n6. ASCII Art Maker - nested loops, string multiplication, patterns" ++
  "\n7. Text Adventure Game - dictionaries, game state, combining everything\n" ++
  "\nKEY TEACHING APPROACH:" ++
  "\n- Keep explanations SHORT and SIMPLE (1-2 sentences max)" ++
  "\n- Always show WORKING CODE they can run immediately" ++
  "\n- Use fun, relatable analogies (boxes for variables, recipes for functions)" ++
  "\n- Celebrate small wins (\"Nice! You just made Python talk!\")" ++
  "\n- If they're stuck, suggest running the example first"

def aiWeekShown (currentAIWeek : Option Nat) : String :=
  match currentAIWeek with
  | some n => "CS50 AI Week " ++ toString n
  | none => "CS50 AI Home"

def aiContextInfo (weekShown : String) : String :=
  "\nCURRENT CONTEXT:\n- User is viewing: " ++ weekShown ++
  "\n- This is the ADVANCED AI TRACK (assumes Python fundamentals are complete)\n" ++
  "\nCS50 AI WEEKLY TOPICS FOR REFERENCE:" ++
  "\n- Week 0 (Search): DFS, BFS, greedy search, A*, Minimax, Alpha-Beta pruning" ++
  "\n  Projects: Degrees (Six Degrees of Kevin Bacon), Tic-Tac-Toe AI" ++
  "\n- Week 1 (Knowledge): Propositional logic, inference, knowledge engineering, model checking" ++
  "\n  Projects: Knights puzzle, Minesweeper AI" ++
  "\n- Week 2 (Uncertainty): Probability, conditional probability, Bayes' Rule, joint probability, Bayesian networks, Markov chains, Hidden Markov Models" ++
  "\n  Projects: PageRank, Heredity (genetic inheritance)" ++
  "\n- Week 3 (Optimization): Local search, hill climbing, simulated annealing, linear programming, constraint satisfaction problems (CSPs), backtracking, arc consistency" ++
  "\n  Projects: Crossword puzzle generator" ++
  "\n- Week 4 (Learning): Supervised learning, k-nearest neighbors, perceptrons, SVMs, regression, loss functions, overfitting, regularization, reinforcement learning, Q-learning" ++
  "\n  Projects: Shopping (purchase prediction), Nim (RL agent)" ++
  "\n- Week 5 (Neural Networks): Activation functions (ReLU, sigmoid), gradient descent, backpropagation, multilayer networks, CNNs, image convolution, pooling, RNNs" ++
  "\n  Projects: Traffic sign recognition (CNN)" ++
  "\n- Week 6 (Language): NLP, syntax vs semantics, context-free grammars, n-grams, bag of words, TF-IDF, word embeddings, transformers, attention mechanism" ++
  "\n  Projects: Parser (CFG), Questions (TF-IDF QA system)\n" ++
  "\nLIBRARIES COMMONLY USED:" ++
  "\n- pygame: Game visualizations" ++
  "\n- scikit-learn: ML classifiers (k-NN, SVM)" ++
  "\n- tensorflow/keras: Neural networks (CNNs, RNNs)" ++
  "\n- nltk: NLP tasks (tokenization, parsing)" ++
  "\n- PIL/opencv: Image processing"

/-- `${context.currentModule ? ... : 'Home page'}`: a JavaScript
truthiness test, so module number 0 would also show the home page. -/
def moduleShown (currentModule : Option Nat) : String :=
  match currentModule with
  | some n => if n != 0 then "Module " ++ toString n else "Home page"
  | none => "Home page"

def completedShown (completedModules : List Nat) : String :=
  if completedModules.length > 0 then
    String.intercalate ", " (completedModules.map toString)
  else "None yet"

def stdContextInfo (moduleLine completedLine : String) (practiceCount : Nat) : String :=
  "\nCURRENT CONTEXT:\n- User is viewing: " ++ moduleLine ++
  "\n- Completed modules: " ++ completedLine ++
  "\n- Practice problems done: " ++ toString practiceCount ++ "\n" ++
  "\nMODULE TOPICS FOR REFERENCE:" ++
  "\n- Module 1: Variables, data types (int, float, str, bool), basic operators" ++
  "\n- Module 2: if/else, for loops, while loops, list comprehensions" ++
  "\n- Module 3: Functions, parameters, return values, importing modules" ++
  "\n- Module 4: Lists, tuples, dictionaries, sets" ++
  "\n- Module 5: File reading/writing, try/except, error handling" ++
  "\n- Module 6: Classes, objects, methods, inheritance"

def guideModeInstructions : String :=
  "\nYOU ARE IN GUIDE MODE (Socratic Learning):" ++
  "\nYour goal is to help the learner discover answers themselves. Follow these rules:\n" ++
  "\n1. NEVER give the full answer immediately" ++
  "\n2. Start by asking what they already know or think" ++
  "\n3. Give hints and leading questions instead of solutions" ++
  "\n4. When they're stuck, break it into smaller steps" ++
  "\n5. Celebrate their attempts even if wrong: \"Good thinking! Let's adjust...\"" ++
  "\n6. Ask \"What do you think will happen if...?\" before showing output" ++
  "\n7. If they explicitly say \"just tell me\" or \"I give up\", then switch to explaining\n" ++
  "\nExample responses:" ++
  "\n- \"What do you think a variable is for? Have you seen any examples?\"" ++
  "\n- \"You're close! What if we changed line 3 - what would happen?\"" ++
  "\n- \"Great question! Before I explain, what's your guess?\"" ++
  "\n- \"I see you're working with loops. What pattern do you notice?\"\n" ++
  "\nBe encouraging, patient, and make learning feel like a conversation."

def solutionModeInstructions : String :=
  "\nYOU ARE IN SOLUTION MODE (Direct Teaching):" ++
  "\nThe learner wants clear, direct explanations. Follow these rules:\n" ++
  "\n1. Explain concepts clearly and simply, like talking to a smart 12-year-old" ++
  "\n2. Always include working code examples" ++
  "\n3. Show the expected output" ++
  "\n4. Explain WHY things work, not just HOW" ++
  "\n5. Keep responses focused (under 200 words unless they ask for more)" ++
  "\n6. Use analogies to make concepts stick"

def starterBaseRole : String :=
  "You are Sluggy, an enthusiastic and patient coding buddy helping someone write their VERY FIRST Python programs. You make coding feel like play, not work."

def aiBaseRole : String :=
  "You are Sluggy, a knowledgeable AI tutor helping a Python programmer learn artificial intelligence concepts from CS50 AI."

def stdBaseRole : String :=
  "You are a friendly Python tutor helping a complete beginner learn programming."

def starterUniversalRules : String :=
  "UNIVERSAL RULES:" ++
  "\n- NEVER assume any prior coding knowledge - explain EVERYTHING" ++
  "\n- Keep responses under 100 words - beginners get overwhelmed easily" ++
  "\n- Always end with something they can TRY (\"Run the code and see what happens!\")" ++
  "\n- Use everyday analogies (mailboxes, recipes, lego bricks)" ++
  "\n- If they make a typo or small error, gently point it out with the fix" ++
  "\n- Celebrate every working piece of code!"

def aiUniversalRules : String :=
  "UNIVERSAL RULES:" ++
  "\n- Assume the learner knows Python basics (variables, loops, functions, classes)" ++
  "\n- Be encouraging - AI concepts can be challenging!" ++
  "\n- Use concrete examples and visualizations when explaining algorithms" ++
  "\n- When discussing math (probability, calculus), explain intuitively first, then formally" ++
  "\n- For projects, guide them toward the CS50 AI approach but encourage experimentation" ++
  "\n- If they ask about cutting-edge topics (GPT, diffusion models), acknowledge them but redirect to course fundamentals first"

def stdUniversalRules : String :=
  "UNIVERSAL RULES:" ++
  "\n- Be encouraging - learning to code is hard!" ++
  "\n- Use only concepts from modules they've completed or are currently viewing" ++
  "\n- If they ask about advanced topics, acknowledge it and suggest focusing on current material first"

/-- `BuildPromptNode.exec`: pure string assembly of
`${baseRole}\n${modeInstructions}\n${contextInfo}\n\n${universalRules}`. -/
def buildPromptExec (question : String) (context : Ctx) : Prompt :=
  let isGuideMode := context.tutorMode = "guide"
  let contextInfo :=
    if context.isStarterTrack then
      starterContextInfo (starterProjectName context.currentStarterProject)
    else if context.isAITrack then
      aiContextInfo (aiWeekShown context.currentAIWeek)
    else
      stdContextInfo (moduleShown context.currentModule)
        (completedShown context.completedModules) context.practiceCount
  let modeInstructions :=
    if isGuideMode then guideModeInstructions else solutionModeInstructions
  let baseRole :=
    if context.isStarterTrack then starterBaseRole
    else if context.isAITrack then aiBaseRole
    else stdBaseRole
  let universalRules :=
    if context.isStarterTrack then starterUniversalRules
    else if context.isAITrack then aiUniversalRules
    else stdUniversalRules
  { systemPrompt := baseRole ++ "\n" ++ modeInstructions ++ "\n" ++ contextInfo ++ "\n\n" ++ universalRules
    userMessage := question }

/-! ## Backend Dispatcher (`CallLLMNode`, tutor-flow.js 375-496)

The external calls (fetch, the engine's chat completion) are oracles in
a `BackendEnv`; `Except.error m` models a thrown JavaScript exception
whose `error.message` is `m`. -/

/-- An HTTP reply as the dispatcher observes it: `ok`/`status` of the
fetch `Response`, `bodyText` for `response.text()`, and `jsonContent`
for `(await response.json()).message.content` respectively
`.choices[0].message.content` (`Except.error` models a throw from the
JSON parse or the member accesses on a malformed body). -/
structure HttpReply where
  ok : Bool
  status : Nat
  bodyText : String
  jsonContent : Except String String

/-- External world of one dispatch: `TutorConfig.backend` and the
outcome of each backend call as a function of the prompt pair. -/
structure BackendEnv where
  backend : String
  engine : Option (String → String → Except String String)
  ollamaFetch : String → String → Except String HttpReply
  openaiFetch : String → String → Except String HttpReply

/-- `CallLLMNode.callWebLLM`: missing engine handle throws immediately. -/
def callWebLLM (env : BackendEnv) (systemPrompt userMessage : String) : Except String String :=
  match env.engine with
  | none => .error "WebLLM model not loaded yet. Please wait for it to finish loading."
  | some engine => engine systemPrompt userMessage

/-- `CallLLMNode.callOllama`: one POST; non-2xx throws with the status. -/
def callOllama (env : BackendEnv) (systemPrompt userMessage : String) : Except String String :=
  match env.ollamaFetch systemPrompt userMessage with
  | .error e => .error e
  | .ok response =>
    if !response.ok then
      .error ("Ollama error: " ++ toString response.status ++ ". Is Ollama running?")
    else response.jsonContent

/-- `CallLLMNode.callOpenAI`: one POST; non-2xx throws with status and body. -/
def callOpenAI (env : BackendEnv) (systemPrompt userMessage : String) : Except String String :=
  match env.openaiFetch systemPrompt userMessage with
  | .error e => .error e
  | .ok response =>
    if !response.ok then
      .error ("API error: " ++ toString response.status ++ ". " ++ response.bodyText)
    else response.jsonContent

/-- The `switch (backend)` inside the `try` block of `CallLLMNode.exec`;
an unknown backend name throws. -/
def dispatchCall (env : BackendEnv) (systemPrompt userMessage : String) : Except String String :=
  match env.backend with
  | "webllm" => callWebLLM env systemPrompt userMessage
  | "ollama" => callOllama env systemPrompt userMessage
  | "openai" => callOpenAI env systemPrompt userMessage
  | b => .error ("Unknown backend: " ++ b)

/-- `error.message || 'Failed to get response from AI'` (an empty
message string is falsy in JavaScript). -/
def orDefaultMsg (m : String) : String :=
  if m = "" then "Failed to get response from AI" else m

/-- `CallLLMNode.exec`: the `try/catch` around the backend switch; any
caught exception becomes a Failure outcome, and nothing escapes. -/
def callLLMExec (env : BackendEnv) (systemPrompt userMessage : String) : LLMResult :=
  match dispatchCall env systemPrompt userMessage with
  | .ok response => .success response
  | .error e => .failure (orDefaultMsg e)

/-! ## Pipeline Runner (`Flow`, tutor-flow.js 102-140)

A node is its name with its `run` behaviour (`prep → exec → post`
composed, returning the mutated shared store and the action string).
`Flow.run`'s `while (currentNode)` loop is modelled with a fuel
parameter; `none` means the fuel bound was hit before the loop ended. -/

structure FlowNode (σ : Type) where
  name : String
  runNode : σ → σ × String

structure Flow (σ : Type) where
  startNode : FlowNode σ
  nodes : List (String × FlowNode σ)
  edges : List (String × List (String × String))

def Flow.getNode {σ : Type} (f : Flow σ) (name : String) : Option (FlowNode σ) :=
  (f.nodes.find? (fun p => p.1 = name)).map (·.2)

/-- `this.edges.get(node.name)?.[action]`. -/
def Flow.edgeTarget {σ : Type} (f : Flow σ) (src action : String) : Option String :=
  match f.edges.find? (fun p => p.1 = src) with
  | none => none
  | some (_, m) => (m.find? (fun p => p.1 = action)).map (·.2)

/-- `Flow.run` (tutor-flow.js 123-139): execute the current node, look
its returned action up in the edge table; no match (or a falsy target,
or a target name with no registered node) ends the loop and the shared
store is returned as mutated so far. -/
def Flow.runFuel {σ : Type} (f : Flow σ) : Nat → Option (FlowNode σ) → σ → Option σ
  | _, none, shared => some shared
  | 0, some _, _ => none
  | fuel+1, some cur, shared =>
    let node := (f.getNode cur.name).getD cur
    let res := node.runNode shared
    match f.edgeTarget node.name res.2 with
    | some toName =>
      if toName = "" then some res.1
      else f.runFuel fuel (f.getNode toName) res.1
    | none => some res.1

/-! ## The tutor flow (`createTutorFlow`, tutor-flow.js 586-607)

The shared store starts as `{question}` (tutor-flow.js 696); each stage
writes its own key. In the stubless JavaScript a stage reading a key no
predecessor wrote would throw on the destructuring; under the wiring
below that never happens, and those branches return the store unchanged
with the action `""`, which matches no edge. -/

structure Shared where
  question : String
  context : Option Ctx := none
  prompt : Option Prompt := none
  llmResult : Option LLMResult := none
  formattedResponse : Option Formatted := none
  deriving DecidableEq, Repr

/-- Everything the pipeline reads from outside one run: the page path
and stored progress (`GetContextNode.prep`), the configured mode, and
the backend world. -/
structure TutorEnv where
  currentPage : String
  tutorMode : String
  progress : ProgressRec
  backend : BackendEnv

def getContextNode (env : TutorEnv) : FlowNode Shared :=
  { name := "GetContext"
    runNode := fun shared =>
      ({ shared with context := some (getContextExec env.currentPage env.tutorMode env.progress) },
       "default") }

def buildPromptNode : FlowNode Shared :=
  { name := "BuildPrompt"
    runNode := fun shared =>
      match shared.context with
      | some context =>
        ({ shared with prompt := some (buildPromptExec shared.question context) }, "default")
      | none => (shared, "") }

def callLLMNode (env : TutorEnv) : FlowNode Shared :=
  { name := "CallLLM"
    runNode := fun shared =>
      match shared.prompt with
      | some p =>
        let execResult := callLLMExec env.backend p.systemPrompt p.userMessage
        ({ shared with llmResult := some execResult },
         match execResult with
         | .success _ => "success"
         | .failure _ => "error")
      | none => (shared, "") }

def formatResponseNode : FlowNode Shared :=
  { name := "FormatResponse"
    runNode := fun shared =>
      match shared.llmResult with
      | some r => ({ shared with formattedResponse := some (formatResponseExec r) }, "default")
      | none => (shared, "") }

def errorHandlerNode : FlowNode Shared :=
  { name := "ErrorHandler"
    runNode := fun shared =>
      let error : Option String :=
        match shared.llmResult with
        | some (.failure m) => some m
        | _ => none
      ({ shared with formattedResponse := some (errorHandlerExec error shared.question) },
       "default") }

def createTutorFlow (env : TutorEnv) : Flow Shared :=
  { startNode := getContextNode env
    nodes := [
      ("GetContext", getContextNode env),
      ("BuildPrompt", buildPromptNode),
      ("CallLLM", callLLMNode env),
      ("FormatResponse", formatResponseNode),
      ("ErrorHandler", errorHandlerNode)]
    edges := [
      ("GetContext", [("default", "BuildPrompt")]),
      ("BuildPrompt", [("default", "CallLLM")]),
      ("CallLLM", [("success", "FormatResponse"), ("error", "ErrorHandler")])] }

/-- `askTutor`'s pipeline run with an explicit execution budget. -/
def runTutorFlow (env : TutorEnv) (question : String) (fuel : Nat) : Option Shared :=
  (createTutorFlow env).runFuel fuel (some (createTutorFlow env).startNode) { question := question }

/-! ## In-process model loading (`TutorLLM.init`, tutor-flow.js 612-649)

The async method is modelled at its suspension points: the synchronous
prefix (guard check and `isLoading := true`) is one atomic step, and the
completion or failure of the awaited load is another. -/

structure TutorLLMState where
  engine : Option String
  isLoading : Bool
  isReady : Bool
  deriving DecidableEq, Repr

def initialTutorLLM : TutorLLMState :=
  { engine := none, isLoading := false, isReady := false }

inductive LLMEvent where
  | initCall
  | loadSuccess (handle : String)
  | loadFail
  deriving DecidableEq, Repr

/-- Synchronous prefix of `TutorLLM.init`: the memoization guard
`if (this.isLoading || this.isReady) return;` then `isLoading = true`.
The boolean reports whether this call started a load. -/
def initStep (s : TutorLLMState) : TutorLLMState × Bool :=
  if s.isLoading || s.isReady then (s, false)
  else ({ s with isLoading := true }, true)

/-- One interleaving step. A completion event only applies to an
in-flight load (`isLoading`); success stores the engine handle then
sets `isReady`, failure clears `isLoading` and rethrows. -/
def llmStep (s : TutorLLMState) : LLMEvent → TutorLLMState
  | .initCall => (initStep s).1
  | .loadSuccess handle =>
    if s.isLoading then { engine := some handle, isLoading := false, isReady := true } else s
  | .loadFail =>
    if s.isLoading then { s with isLoading := false } else s

def llmRun (s : TutorLLMState) : List LLMEvent → TutorLLMState
  | [] => s
  | e :: es => llmRun (llmStep s e) es

/-! ## Untyped stored progress (`GetContextNode` over arbitrary storage)

`Progress.get()` returns whatever JSON was in local storage, so the
collector's progress handling is also modelled over untyped JavaScript
values, with property reads that throw on `null`/`undefined`. The typed
`getContextExec` above is this model restricted to records shaped like
the ones `app.js` writes. -/

inductive JsVal where
  | jsUndefined
  | jsNull
  | jsBool (b : Bool)
  | jsNum (n : Int)
  | jsStr (s : String)
  | jsObj (fields : List (String × JsVal))
  deriving Repr

/-- JavaScript truthiness (`NaN` is not modelled; no call site can see one). -/
def jsTruthy : JsVal → Bool
  | .jsUndefined => false
  | .jsNull => false
  | .jsBool b => b
  | .jsNum n => n != 0
  | .jsStr s => s != ""
  | .jsObj _ => true

/-- Property read `v.k`: throws on `null`/`undefined`, `undefined` for a
missing key or a primitive receiver. -/
def jsGet (v : JsVal) (k : String) : Except String JsVal :=
  match v with
  | .jsUndefined => .error ("TypeError: Cannot read properties of undefined (reading '" ++ k ++ "')")
  | .jsNull => .error ("TypeError: Cannot read properties of null (reading '" ++ k ++ "')")
  | .jsObj fields => .ok ((((fields.find? (fun p => p.1 = k)).map (·.2))).getD .jsUndefined)
  | _ => .ok .jsUndefined

/-- `a || b`. -/
def jsOr (a b : JsVal) : JsVal := if jsTruthy a then a else b

/-- `Object.entries(v)` for the guarded call sites (never `null` there). -/
def jsEntries : JsVal → List (String × JsVal)
  | .jsObj fields => fields
  | _ => []

/-- Decimal digit-prefix value, for `parseInt`. -/
def digitsPrefixVal (cs : List Char) : Option Nat :=
  match cs.takeWhile Char.isDigit with
  | [] => none
  | ds => some (ds.foldl (fun acc d => acc * 10 + (d.toNat - '0'.toNat)) 0)

/-- `parseInt(s)` in base 10: skip leading whitespace, optional sign,
leading digits; `none` is `NaN`. (The `0x` hex form is not modelled;
no module key can look like one without already being `NaN`-adjacent.) -/
def jsParseInt (s : String) : Option Int :=
  match s.toList.dropWhile Char.isWhitespace with
  | '-' :: rest => (digitsPrefixVal rest).map (fun n => -(n : Int))
  | '+' :: rest => (digitsPrefixVal rest).map (fun n => (n : Int))
  | cs => (digitsPrefixVal cs).map (fun n => (n : Int))

/-- `.filter(([_, m]) => m.completed)`: the predicate reads `completed`
on each entry value, so a `null`/`undefined` entry value throws. -/
def filterCompleted : List (String × JsVal) → Except String (List (String × JsVal))
  | [] => .ok []
  | (k, m) :: rest => do
    let c ← jsGet m "completed"
    let tail ← filterCompleted rest
    if jsTruthy c then .ok ((k, m) :: tail) else .ok tail

/-- Context Snapshot over untyped progress: `completedModules` keeps the
`parseInt` results (`none` = `NaN`), `practiceCount` keeps the raw
JavaScript value of `progress.practiceCount || 0`. -/
structure CtxJs where
  currentModule : Option Nat
  isAITrack : Bool
  currentAIWeek : Option Nat
  isStarterTrack : Bool
  currentStarterProject : Option String
  completedModules : List (Option Int)
  practiceCount : JsVal
  tutorMode : String

/-- `GetContextNode.exec` over an arbitrary progress value (after
`prep`'s `|| {}`). -/
def getContextExecJs (currentPage : String) (tutorMode : String) (progress : JsVal) :
    Except String CtxJs := do
  let modulesRaw ← jsGet progress "modules"
  let completedEntries ← filterCompleted (jsEntries (jsOr modulesRaw (.jsObj [])))
  let practiceRaw ← jsGet progress "practiceCount"
  .ok { currentModule := findDigitAfter "module-".toList currentPage.toList
        isAITrack := jsIncludes currentPage "cs50-ai" || jsIncludes currentPage "ai-week-"
        currentAIWeek := findDigitAfter "ai-week-".toList currentPage.toList
        isStarterTrack := jsIncludes currentPage "python-starter" || jsIncludes currentPage "starter-"
        currentStarterProject := (findStarterProject currentPage.toList).map List.asString
        completedModules := completedEntries.map (fun p => jsParseInt p.1)
        practiceCount := jsOr practiceRaw (.jsNum 0)
        tutorMode := tutorMode }

/-- `GetContextNode.prep` + `exec`: `window.PyLearn?.Progress?.get() || {}`
then the analysis, over the raw stored value. -/
def getContextNodeJs (currentPage : String) (tutorMode : String) (stored : JsVal) :
    Except String CtxJs :=
  getContextExecJs currentPage tutorMode (jsOr stored (.jsObj []))

/-! ## General lemmas -/

theorem toList_append (a b : String) : (a ++ b).toList = a.toList ++ b.toList :=
  String.data_append a b

/-- The markup `pat` occurs somewhere inside `s`. -/
def strContains (s pat : String) : Prop := pat.toList <:+: s.toList

instance (s pat : String) : Decidable (strContains s pat) := by
  unfold strContains; infer_instance

theorem strContains_of_containsSeq {s pat : String}
    (h : containsSeq pat.toList s.toList = true) : strContains s pat := by
  obtain ⟨pre, post, hsplit⟩ := (containsSeq_iff pat.toList s.toList).mp h
  exact ⟨pre, post, by rw [hsplit]⟩

theorem strContains_appendL (t : String) {s pat : String} (h : strContains s pat) :
    strContains (t ++ s) pat := by
  unfold strContains at h ⊢
  rw [toList_append]
  exact h.trans (List.suffix_append t.toList s.toList).isInfix

theorem strContains_appendR (t : String) {s pat : String} (h : strContains s pat) :
    strContains (s ++ t) pat := by
  unfold strContains at h ⊢
  rw [toList_append]
  exact h.trans (List.prefix_append s.toList t.toList).isInfix

/-! ## No-markdown-token identity of the formatter passes

Each pass leaves an input without its trigger character unchanged,
independently of the fuel (running out of fuel also returns the input). -/

theorem pyFenceF_id (fuel : Nat) (cs : List Char) (h : '`' ∉ cs) :
    pyFenceF fuel cs = cs := by
  cases fuel with
  | zero => rfl
  | succ n =>
    have hs : splitOnce pyFenceOpen cs = none :=
      splitOnce_none_of_not_mem _ _ '`' (by decide) h
    simp [pyFenceF, hs]

theorem fenceF_id (fuel : Nat) (cs : List Char) (h : '`' ∉ cs) :
    fenceF fuel cs = cs := by
  cases fuel with
  | zero => rfl
  | succ n =>
    have hs : splitOnce fenceMark cs = none :=
      splitOnce_none_of_not_mem _ _ '`' (by decide) h
    simp [fenceF, hs]

theorem inlineCodeF_id (fuel : Nat) (cs : List Char) (h : '`' ∉ cs) :
    inlineCodeF fuel cs = cs := by
  induction fuel generalizing cs with
  | zero => rfl
  | succ n ih =>
    cases cs with
    | nil => rfl
    | cons c rest =>
      have hc : ¬ (c = '`') := fun e => h (e ▸ List.mem_cons_self c rest)
      have hrest : '`' ∉ rest := fun hm => h (List.mem_cons_of_mem c hm)
      simp [inlineCodeF, hc, ih rest hrest]

theorem boldF_id (fuel : Nat) (cs : List Char) (h : '*' ∉ cs) :
    boldF fuel cs = cs := by
  induction fuel generalizing cs with
  | zero => rfl
  | succ n ih =>
    cases cs with
    | nil => rfl
    | cons c rest =>
      have hc : ¬ (c = '*') := fun e => h (e ▸ List.mem_cons_self c rest)
      have hrest : '*' ∉ rest := fun hm => h (List.mem_cons_of_mem c hm)
      simp [boldF, hc, ih rest hrest]

theorem replaceListF_id (pat repl : List Char) (c₀ : Char) (hc : c₀ ∈ pat)
    (fuel : Nat) (cs : List Char) (h : c₀ ∉ cs) :
    replaceListF pat repl fuel cs = cs := by
  induction fuel generalizing cs with
  | zero => cases cs <;> rfl
  | succ n ih =>
    cases cs with
    | nil => rfl
    | cons c rest =>
      have hpre : ¬ pat.isPrefixOf (c :: rest) := fun hp =>
        h ((List.isPrefixOf_iff_prefix.mp hp).subset hc)
      have hrest : c₀ ∉ rest := fun hm => h (List.mem_cons_of_mem c hm)
      simp [replaceListF, hpre, ih rest hrest]

theorem formatMarkdownHtml_id (s : String)
    (h1 : '`' ∉ s.toList) (h2 : '*' ∉ s.toList) (h3 : '\n' ∉ s.toList) :
    formatMarkdownHtml s = s := by
  simp only [formatMarkdownHtml]
  rw [pyFenceF_id _ _ h1, fenceF_id _ _ h1, inlineCodeF_id _ _ h1, boldF_id _ _ h2,
    replaceListF_id _ _ '\n' (by decide) _ _ h3, replaceListF_id _ _ '\n' (by decide) _ _ h3]
  rfl

theorem jsStartsWith_lt_of_head (c : Char) (rest : List Char) (s : String)
    (hs : s.toList = c :: rest) : jsStartsWith s "<" = ('<' == c) := by
  unfold jsStartsWith
  rw [hs, show "<".toList = ['<'] from rfl]
  simp [List.isPrefixOf]

theorem jsStartsWith_lt_false (s : String) (h : '<' ∉ s.toList) :
    jsStartsWith s "<" = false := by
  cases hs : s.toList with
  | nil => unfold jsStartsWith; rw [hs]; rfl
  | cons c rest =>
    rw [jsStartsWith_lt_of_head c rest s hs]
    rw [beq_eq_false_iff_ne]
    intro e
    exact h (hs ▸ e ▸ List.mem_cons_self c rest)

/-- The paragraph-wrapped form of any string starts with `<`. -/
theorem jsStartsWith_wrapped (s : String) :
    jsStartsWith ("<p>" ++ s ++ "</p>") "<" = true := by
  have h0 : ("<p>" ++ s ++ "</p>").toList = '<' :: ('p' :: '>' :: (s.toList ++ "</p>".toList)) := by
    rw [toList_append, toList_append, List.append_assoc]
    rfl
  rw [jsStartsWith_lt_of_head _ _ _ h0]
  rfl

/-! ## The tutor flow's complete run -/

/-- The shared store at the end of one complete tutor-pipeline run. -/
def tutorFinal (env : TutorEnv) (q : String) : Shared :=
  let ctx := getContextExec env.currentPage env.tutorMode env.progress
  let p := buildPromptExec q ctx
  let r := callLLMExec env.backend p.systemPrompt p.userMessage
  { question := q
    context := some ctx
    prompt := some p
    llmResult := some r
    formattedResponse := some (match r with
      | .success _ => formatResponseExec r
      | .failure m => errorHandlerExec (some m) q) }

/-- Any fuel of at least four executes the whole tutor flow: it runs
GetContext, BuildPrompt, CallLLM and then exactly one of
FormatResponse/ErrorHandler, whose `default` action has no edge. -/
theorem runTutorFlow_eq (env : TutorEnv) (q : String) (k : Nat) :
    runTutorFlow env q (k + 4) = some (tutorFinal env q) := by
  cases hr : callLLMExec env.backend
      (buildPromptExec q (getContextExec env.currentPage env.tutorMode env.progress)).systemPrompt
      (buildPromptExec q (getContextExec env.currentPage env.tutorMode env.progress)).userMessage with
  | success t =>
    simp [runTutorFlow, createTutorFlow, Flow.runFuel, Flow.getNode, Flow.edgeTarget,
      getContextNode, buildPromptNode, callLLMNode, formatResponseNode, errorHandlerNode,
      tutorFinal, List.find?, hr]
  | failure m =>
    simp [runTutorFlow, createTutorFlow, Flow.runFuel, Flow.getNode, Flow.edgeTarget,
      getContextNode, buildPromptNode, callLLMNode, formatResponseNode, errorHandlerNode,
      tutorFinal, List.find?, hr]

theorem strAppend_assoc (a b c : String) : a ++ b ++ c = a ++ (b ++ c) := by
  apply String.ext
  show (a ++ b ++ c).toList = (a ++ (b ++ c)).toList
  rw [toList_append, toList_append, toList_append, toList_append, List.append_assoc]

theorem strContains_ne_nil {s pat : String} (h : strContains s pat)
    (hp : pat.toList ≠ []) : s ≠ "" := by
  intro hs
  rw [hs] at h
  have h0 : pat.toList <:+: ("" : String).toList := h
  rw [show ("" : String).toList = [] from rfl, List.infix_nil] at h0
  exact hp h0

/-! ## Marker strings for the Prompt Builder claims -/

def guideMarker : String := "YOU ARE IN GUIDE MODE (Socratic Learning):"

def solutionMarker : String := "YOU ARE IN SOLUTION MODE (Direct Teaching):"

def starterCatalogMarker : String := "PYTHON STARTER PROJECTS (in order):"

def aiCatalogMarker : String := "CS50 AI WEEKLY TOPICS FOR REFERENCE:"

def stdCatalogMarker : String := "MODULE TOPICS FOR REFERENCE:"

/-- The instruction block the configured mode selects. -/
def modeMarker (tutorMode : String) : String :=
  if tutorMode = "guide" then guideMarker else solutionMarker

/-- The topic catalog the track classification selects. -/
def trackMarker (context : Ctx) : String :=
  if context.isStarterTrack then starterCatalogMarker
  else if context.isAITrack then aiCatalogMarker
  else stdCatalogMarker

set_option maxRecDepth 40000 in
theorem starterContextInfo_contains (n : String) :
    strContains (starterContextInfo n) starterCatalogMarker := by
  unfold starterContextInfo
  simp only [strAppend_assoc]
  apply strContains_appendL
  apply strContains_appendL
  decide

set_option maxRecDepth 40000 in
theorem aiContextInfo_contains (w : String) :
    strContains (aiContextInfo w) aiCatalogMarker := by
  unfold aiContextInfo
  simp only [strAppend_assoc]
  apply strContains_appendL
  apply strContains_appendL
  decide

set_option maxRecDepth 40000 in
theorem stdContextInfo_contains (m c : String) (p : Nat) :
    strContains (stdContextInfo m c p) stdCatalogMarker := by
  unfold stdContextInfo
  simp only [strAppend_assoc]
  apply strContains_appendL
  apply strContains_appendL
  apply strContains_appendL
  apply strContains_appendL
  apply strContains_appendL
  apply strContains_appendL
  decide

/-! ## TutorLLM loading invariants -/

theorem llmStep_ready_fixed {s : TutorLLMState} (hr : s.isReady = true)
    (hl : s.isLoading = false) (e : LLMEvent) : llmStep s e = s := by
  cases e with
  | initCall => simp [llmStep, initStep, hr]
  | loadSuccess h => simp [llmStep, hl]
  | loadFail => simp [llmStep, hl]

theorem llmRun_ready_fixed {s : TutorLLMState} (hr : s.isReady = true)
    (hl : s.isLoading = false) (evs : List LLMEvent) : llmRun s evs = s := by
  induction evs with
  | nil => rfl
  | cons e es ih => simp [llmRun, llmStep_ready_fixed hr hl, ih]

theorem llmStep_invar {s : TutorLLMState} (h : s.isReady = true → s.isLoading = false)
    (e : LLMEvent) :
    (llmStep s e).isReady = true → (llmStep s e).isLoading = false := by
  cases e with
  | initCall =>
    simp only [llmStep, initStep]
    by_cases hc : (s.isLoading || s.isReady) = true
    · simp only [hc]
      simpa [hc] using h
    · simp only [Bool.or_eq_true, not_or] at hc
      simp [hc.1, hc.2]
  | loadSuccess handle =>
    by_cases hl : s.isLoading = true
    · simp [llmStep, hl]
    · simp only [Bool.not_eq_true] at hl
      simp only [llmStep, hl, Bool.false_eq_true, if_false]
      intro hr
      trivial
  | loadFail =>
    by_cases hl : s.isLoading = true
    · simp [llmStep, hl]
    · simp only [Bool.not_eq_true] at hl
      simp only [llmStep, hl, Bool.false_eq_true, if_false]
      intro hr
      trivial

theorem llmRun_invar {s : TutorLLMState} (h : s.isReady = true → s.isLoading = false)
    (evs : List LLMEvent) :
    (llmRun s evs).isReady = true → (llmRun s evs).isLoading = false := by
  induction evs generalizing s with
  | nil => exact h
  | cons e es ih => exact ih (llmStep_invar h e)

/-! ## The claims -/

/-- C1: For every (systemPrompt, userMessage) input and every configured
backend kind, one run of the Backend Dispatcher returns exactly one
Dispatch Outcome — Success or Failure, never both; any exception raised
during the call (modelled by an `Except.error` of the backend switch) is
caught and converted to a Failure outcome carrying the error's
description text (with the empty message replaced by the default), and a
normal return is wrapped as Success. The dispatcher itself is a total
function into `LLMResult`, so it never raises, and it consults the
backend world exactly once with no retry. -/
theorem claim1_backend_dispatch_single_outcome (env : BackendEnv) (systemPrompt userMessage : String) :
    ((∃ t, callLLMExec env systemPrompt userMessage = .success t) ∨
      (∃ m, callLLMExec env systemPrompt userMessage = .failure m)) ∧
    ¬ ((∃ t, callLLMExec env systemPrompt userMessage = .success t) ∧
       (∃ m, callLLMExec env systemPrompt userMessage = .failure m)) ∧
    (∀ m, dispatchCall env systemPrompt userMessage = .error m →
      callLLMExec env systemPrompt userMessage = .failure (orDefaultMsg m)) ∧
    (∀ t, dispatchCall env systemPrompt userMessage = .ok t →
      callLLMExec env systemPrompt userMessage = .success t) := by
  refine ⟨?_, ?_, ?_, ?_⟩
  · cases h : dispatchCall env systemPrompt userMessage with
    | ok t => exact Or.inl ⟨t, by simp [callLLMExec, h]⟩
    | error e => exact Or.inr ⟨orDefaultMsg e, by simp [callLLMExec, h]⟩
  · rintro ⟨⟨t, ht⟩, ⟨m, hm⟩⟩
    rw [ht] at hm
    exact LLMResult.noConfusion hm
  · intro m hm
    simp [callLLMExec, hm]
  · intro t ht
    simp [callLLMExec, ht]

/-- C2 counterexample: on the input `"```python\nprint(1)\n```"` the
formatter's code block does not contain exactly `print(1)` — the lazy
capture keeps the trailing newline, which the later `/\n/g` pass turns
into `<br>` inside the code element, so the markup nowhere contains the
code element closed right after `print(1)`. -/
theorem claim2_counterexample :
    (formatResponseExec (.success "```python\nprint(1)\n```")).html
        = "<pre><code class=\"language-python\">print(1)<br></code></pre>" ∧
    ¬ strContains (formatResponseExec (.success "```python\nprint(1)\n```")).html
        "<code class=\"language-python\">print(1)</code>" := by
  exact ⟨rfl, by decide⟩

/-- C2 (amended): formatting `"```python\nprint(1)\n```"` yields markup
whose code block contains `print(1)` followed by one `<br>` tag (the
fenced block's captured trailing newline, converted by the newline
pass), with the python language tag preserved on the code element. -/
theorem claim2_code_block_line_break :
    formatResponseExec (.success "```python\nprint(1)\n```")
      = { html := "<pre><code class=\"language-python\">print(1)<br></code></pre>"
          isError := false } ∧
    strContains (formatResponseExec (.success "```python\nprint(1)\n```")).html
      "<code class=\"language-python\">print(1)<br></code>" := by
  exact ⟨rfl, by decide⟩

/-- C6: fallback keyword matching is deterministic — with the fixed
keyword table, the same question yields the same matched entry and the
same output regardless of which error message accompanies the failure;
the first keyword (in the table's fixed iteration order) contained in
the lower-cased question wins. -/
theorem claim6_fallback_deterministic_first_match
    (q : String) (e₁ e₂ : Option String) (l₁ l₂ : List (String × String)) (k r : String)
    (htab : fallbackResponses = l₁ ++ (k, r) :: l₂)
    (hk : jsIncludes (jsToLower q) k = true)
    (hfirst : ∀ p ∈ l₁, jsIncludes (jsToLower q) p.1 = false) :
    errorHandlerExec e₁ q = errorHandlerExec e₂ q ∧
    errorHandlerExec e₁ q =
      { html := "<p>While connecting to the AI, here's a quick answer:</p><p>" ++ r ++ "</p>"
        isError := false } := by
  have hfind : fallbackResponses.find? (fun p => jsIncludes (jsToLower q) p.1) = some (k, r) := by
    rw [htab, List.find?_append]
    have h1 : l₁.find? (fun p => jsIncludes (jsToLower q) p.1) = none :=
      List.find?_eq_none.mpr (fun p hp => by simp [hfirst p hp])
    rw [h1]
    simp [List.find?_cons_of_pos, hk]
  constructor
  · simp [errorHandlerExec, hfind]
  · simp [errorHandlerExec, hfind]

/-- C6 witness: the question `"What is a loop?"` matches the `loop`
entry (second in the table, after `variable` which does not match), and
the two different error messages produce the same output. -/
theorem claim6_witness :
    errorHandlerExec (some "E1") "What is a loop?" = errorHandlerExec (some "E2") "What is a loop?" ∧
    errorHandlerExec (some "E1") "What is a loop?" =
      { html := "<p>While connecting to the AI, here's a quick answer:</p><p>A <strong>loop</strong> repeats code multiple times. <code>for i in range(3): print(i)</code></p>"
        isError := false } :=
  claim6_fallback_deterministic_first_match "What is a loop?" (some "E1") (some "E2")
    (fallbackResponses.take 1) (fallbackResponses.drop 2) "loop"
    "A <strong>loop</strong> repeats code multiple times. <code>for i in range(3): print(i)</code>"
    (by decide) (by decide) (by decide)

/-- A string free of the formatter's trigger characters: no backtick, no
asterisk, no newline, and no `<` (markup-free in the sense of the
Response Formatter, whose only markup test is `startsWith('<')`). -/
def plainChar (c : Char) : Bool := !(c == '`' || c == '*' || c == '\n' || c == '<')

def plainText (s : String) : Bool := s.toList.all plainChar

theorem plainText_not_mem {s : String} (h : plainText s = true) :
    '`' ∉ s.toList ∧ '*' ∉ s.toList ∧ '\n' ∉ s.toList ∧ '<' ∉ s.toList := by
  rw [plainText, List.all_eq_true] at h
  refine ⟨fun hm => ?_, fun hm => ?_, fun hm => ?_, fun hm => ?_⟩ <;>
    simpa [plainChar] using h _ hm

theorem not_mem_wrapped {c : Char} {s : String} (hc1 : c ∉ "<p>".toList)
    (hc2 : c ∉ "</p>".toList) (hs : c ∉ s.toList) :
    c ∉ ("<p>" ++ s ++ "</p>").toList := by
  rw [toList_append, toList_append]
  simp only [List.mem_append, not_or]
  exact ⟨⟨hc1, hs⟩, hc2⟩

/-- C7: the Response Formatter is idempotent on markup-free plain text:
a string with no markdown tokens and no newlines formats to the text in
exactly one paragraph wrapper, and formatting that already-formatted
result again leaves it unchanged (no double wrapping). -/
theorem claim7_formatter_idempotent_plain (s : String) (h : plainText s = true) :
    formatResponseExec (.success s) = { html := "<p>" ++ s ++ "</p>", isError := false } ∧
    formatResponseExec (.success ("<p>" ++ s ++ "</p>"))
      = { html := "<p>" ++ s ++ "</p>", isError := false } := by
  obtain ⟨h1, h2, h3, h4⟩ := plainText_not_mem h
  constructor
  · simp [formatResponseExec, formatMarkdownHtml_id s h1 h2 h3, jsStartsWith_lt_false s h4]
  · have w1 : '`' ∉ ("<p>" ++ s ++ "</p>").toList := not_mem_wrapped (by decide) (by decide) h1
    have w2 : '*' ∉ ("<p>" ++ s ++ "</p>").toList := not_mem_wrapped (by decide) (by decide) h2
    have w3 : '\n' ∉ ("<p>" ++ s ++ "</p>").toList := not_mem_wrapped (by decide) (by decide) h3
    simp [formatResponseExec, formatMarkdownHtml_id _ w1 w2 w3, jsStartsWith_wrapped s]

/-- C7 witness at the plain sentence `"hello world."`. -/
theorem claim7_witness :
    plainText "hello world." = true ∧
    formatResponseExec (.success "hello world.")
      = { html := "<p>hello world.</p>", isError := false } ∧
    formatResponseExec (.success "<p>hello world.</p>")
      = { html := "<p>hello world.</p>", isError := false } :=
  ⟨by decide, (claim7_formatter_idempotent_plain "hello world." (by decide)).1,
    (claim7_formatter_idempotent_plain "hello world." (by decide)).2⟩

/-- C10: fallback matching is plain substring containment on the
lower-cased question, not word matching: any question containing
`class` (even inside a longer word such as `classroom`) and none of the
five keywords that precede it in the table gets the `class` canned
explanation with `isError = false`. -/
theorem claim10_keyword_substring_containment (q : String)
    (hclass : jsIncludes (jsToLower q) "class" = true)
    (h1 : jsIncludes (jsToLower q) "variable" = false)
    (h2 : jsIncludes (jsToLower q) "loop" = false)
    (h3 : jsIncludes (jsToLower q) "function" = false)
    (h4 : jsIncludes (jsToLower q) "list" = false)
    (h5 : jsIncludes (jsToLower q) "dictionary" = false) :
    ∀ e, errorHandlerExec e q =
      { html := "<p>While connecting to the AI, here's a quick answer:</p><p>A <strong>class</strong> is a blueprint for creating objects with shared properties.</p>"
        isError := false } := by
  intro e
  simp [errorHandlerExec, fallbackResponses, List.find?, hclass, h1, h2, h3, h4, h5]

/-- C10 witness: `"How do I decorate my classroom?"` never uses `class`
as a standalone word (no `" class "` substring), yet gets the `class`
canned explanation with `isError = false`. -/
theorem claim10_witness :
    errorHandlerExec (some "boom") "How do I decorate my classroom?" =
      { html := "<p>While connecting to the AI, here's a quick answer:</p><p>A <strong>class</strong> is a blueprint for creating objects with shared properties.</p>"
        isError := false } ∧
    jsIncludes (jsToLower "How do I decorate my classroom?") " class " = false ∧
    jsIncludes (jsToLower "How do I decorate my classroom?") "class" = true :=
  ⟨claim10_keyword_substring_containment "How do I decorate my classroom?"
      (by decide) (by decide) (by decide) (by decide) (by decide) (by decide) (some "boom"),
    by decide, by decide⟩

set_option maxRecDepth 40000 in
set_option maxHeartbeats 1600000 in
/-- C3: for every question and context — all six (track, mode)
combinations included — the Prompt Builder returns a non-empty system
prompt that contains the mode-appropriate instruction block header and
the track-appropriate topic catalog header, and passes the question
through as the user message; the function is total by construction and
no combination reaches an undefined template. -/
theorem claim3_prompt_builder_total (q : String) (context : Ctx) :
    (buildPromptExec q context).systemPrompt ≠ "" ∧
    strContains (buildPromptExec q context).systemPrompt (modeMarker context.tutorMode) ∧
    strContains (buildPromptExec q context).systemPrompt (trackMarker context) ∧
    (buildPromptExec q context).userMessage = q := by
  have hmode : strContains (buildPromptExec q context).systemPrompt (modeMarker context.tutorMode) := by
    by_cases hm : context.tutorMode = "guide" <;>
      · simp only [buildPromptExec, modeMarker, hm, if_true, if_false]
        apply strContains_appendR
        apply strContains_appendR
        apply strContains_appendR
        apply strContains_appendR
        apply strContains_appendL
        decide
  have htrack : strContains (buildPromptExec q context).systemPrompt (trackMarker context) := by
    cases hst : context.isStarterTrack with
    | true =>
      simp only [buildPromptExec, trackMarker, hst, if_true, if_false]
      apply strContains_appendR
      apply strContains_appendR
      apply strContains_appendL
      exact starterContextInfo_contains _
    | false =>
      cases hai : context.isAITrack with
      | true =>
        simp only [buildPromptExec, trackMarker, hst, hai, if_true, if_false,
          Bool.false_eq_true]
        apply strContains_appendR
        apply strContains_appendR
        apply strContains_appendL
        exact aiContextInfo_contains _
      | false =>
        simp only [buildPromptExec, trackMarker, hst, hai, if_true, if_false,
          Bool.false_eq_true]
        apply strContains_appendR
        apply strContains_appendR
        apply strContains_appendL
        exact stdContextInfo_contains _ _ _
  have hmark : (trackMarker context).toList ≠ [] := by
    unfold trackMarker
    split_ifs <;> decide
  exact ⟨strContains_ne_nil htrack hmark, hmode, htrack, by simp [buildPromptExec]⟩

/-- C4: a stage whose returned action has no matching outgoing edge
halts the Pipeline Runner, which returns the shared context exactly as
that stage left it; and the tutor flow built by `createTutorFlow`
terminates after at most four node executions (a budget of four always
completes, and any larger budget changes nothing). -/
theorem claim4_pipeline_halts :
    (∀ (σ : Type) (f : Flow σ) (fuel : Nat) (cur : FlowNode σ) (shared : σ),
      f.edgeTarget ((f.getNode cur.name).getD cur).name
          (((f.getNode cur.name).getD cur).runNode shared).2 = none →
      f.runFuel (fuel+1) (some cur) shared
        = some (((f.getNode cur.name).getD cur).runNode shared).1) ∧
    (∀ (env : TutorEnv) (q : String) (fuel : Nat), 4 ≤ fuel →
      runTutorFlow env q fuel = runTutorFlow env q 4 ∧
      (runTutorFlow env q 4).isSome = true) := by
  constructor
  · intro σ f fuel cur shared h
    simp [Flow.runFuel, h]
  · intro env q fuel hf
    obtain ⟨k, rfl⟩ : ∃ k, fuel = k + 4 := ⟨fuel - 4, by omega⟩
    rw [runTutorFlow_eq env q k, show (4 : Nat) = 0 + 4 from rfl, runTutorFlow_eq env q 0]
    simp

/-- C4 witness: a one-node flow whose action has no edge halts at once
with the node's mutation, and a concrete tutor flow gives the same
result with budget 5 as with budget 4. -/
theorem claim4_witness :
    Flow.runFuel
        { startNode := { name := "A", runNode := fun n => (n + 1, "done") }
          nodes := [], edges := [] }
        1 (some { name := "A", runNode := fun n => (n + 1, "done") }) (0 : Nat)
      = some 1 ∧
    runTutorFlow
        { currentPage := "/index.html", tutorMode := "guide"
          progress := { modules := [], practiceCount := 0 }
          backend := { backend := "webllm", engine := none
                       ollamaFetch := fun _ _ => Except.error "net"
                       openaiFetch := fun _ _ => Except.error "net" } }
        "What is a variable?" 5
      = runTutorFlow
          { currentPage := "/index.html", tutorMode := "guide"
            progress := { modules := [], practiceCount := 0 }
            backend := { backend := "webllm", engine := none
                         ollamaFetch := fun _ _ => Except.error "net"
                         openaiFetch := fun _ _ => Except.error "net" } }
          "What is a variable?" 4 :=
  ⟨claim4_pipeline_halts.1 Nat _ 0 _ 0 rfl,
    (claim4_pipeline_halts.2 _ "What is a variable?" 5 (by omega)).1⟩

/-- C5: in every complete pipeline run the Formatted Response's
`isError` flag is `false` whenever the Dispatch Outcome was Success,
and for a Failure outcome the flag is `false` exactly when some
fallback keyword occurs in the lower-cased question. -/
theorem claim5_iserror_semantics (env : TutorEnv) (q : String) :
    ∃ out : Shared, runTutorFlow env q 4 = some out ∧
      ∃ r fr, out.llmResult = some r ∧ out.formattedResponse = some fr ∧
        (∀ t, r = .success t → fr.isError = false) ∧
        (∀ m, r = .failure m →
          (fr.isError = false ↔ ∃ p ∈ fallbackResponses, jsIncludes (jsToLower q) p.1 = true)) := by
  cases hr : callLLMExec env.backend
      (buildPromptExec q (getContextExec env.currentPage env.tutorMode env.progress)).systemPrompt
      (buildPromptExec q (getContextExec env.currentPage env.tutorMode env.progress)).userMessage with
  | success t =>
    refine ⟨tutorFinal env q, runTutorFlow_eq env q 0, .success t,
      formatResponseExec (.success t), ?_, ?_, ?_, ?_⟩
    · simp [tutorFinal, hr]
    · simp [tutorFinal, hr]
    · intro t' _
      simp [formatResponseExec]
    · intro m hm
      simp at hm
  | failure m =>
    refine ⟨tutorFinal env q, runTutorFlow_eq env q 0, .failure m,
      errorHandlerExec (some m) q, ?_, ?_, ?_, ?_⟩
    · simp [tutorFinal, hr]
    · simp [tutorFinal, hr]
    · intro t ht
      simp at ht
    · intro m' _
      constructor
      · intro hfalse
        cases hf : fallbackResponses.find? (fun p => jsIncludes (jsToLower q) p.1) with
        | none => simp [errorHandlerExec, hf] at hfalse
        | some p =>
          have hpred := List.find?_some hf
          exact ⟨p, List.mem_of_find?_eq_some hf, hpred⟩
      · rintro ⟨p, hp, hpred⟩
        cases hf : fallbackResponses.find? (fun p => jsIncludes (jsToLower q) p.1) with
        | none =>
          rw [List.find?_eq_none] at hf
          exact absurd hpred (by simpa using hf p hp)
        | some p' =>
          simp [errorHandlerExec, hf]

/-- C8 counterexample: the Context Collector is not failure-free on
arbitrary malformed stored progress — a progress record whose modules
map holds a `null` entry makes the filter predicate's `m.completed`
read throw a TypeError instead of yielding defaults. -/
theorem claim8_counterexample :
    getContextNodeJs "/" "guide" (.jsObj [("modules", .jsObj [("1", .jsNull)])])
      = .error "TypeError: Cannot read properties of null (reading 'completed')" := rfl

/-- The default progress record `app.js` writes (`Progress.defaultState`). -/
def progressDefaultState : JsVal :=
  .jsObj [
    ("modules", .jsObj [
      ("1", .jsObj [("completed", .jsBool false), ("quizScore", .jsNull)]),
      ("2", .jsObj [("completed", .jsBool false), ("quizScore", .jsNull)]),
      ("3", .jsObj [("completed", .jsBool false), ("quizScore", .jsNull)]),
      ("4", .jsObj [("completed", .jsBool false), ("quizScore", .jsNull)]),
      ("5", .jsObj [("completed", .jsBool false), ("quizScore", .jsNull)]),
      ("6", .jsObj [("completed", .jsBool false), ("quizScore", .jsNull)])]),
    ("practiceCount", .jsNum 0),
    ("notes", .jsObj [])]

/-- C8 (amended): for every navigation path, an absent progress record —
whether the storage layer is missing entirely (`undefined`, which
`prep`'s `|| {}` replaces) or `app.js`'s untouched default record — the
collector succeeds and its progress-derived fields are the empty
defaults: no completed modules and practice count 0 (the current
identifiers are derived from the path, not from progress). -/
theorem claim8_collector_defaults (currentPage tutorMode : String) :
    (∃ ctx, getContextNodeJs currentPage tutorMode .jsUndefined = .ok ctx ∧
      ctx.completedModules = [] ∧ ctx.practiceCount = .jsNum 0) ∧
    (∃ ctx, getContextNodeJs currentPage tutorMode progressDefaultState = .ok ctx ∧
      ctx.completedModules = [] ∧ ctx.practiceCount = .jsNum 0) := by
  constructor
  · exact ⟨_, rfl, rfl, rfl⟩
  · exact ⟨_, rfl, rfl, rfl⟩

/-- C9: loading the in-process model handle is idempotent and memoized:
an init call that finds a load in flight or complete starts no second
load and changes nothing; and once loading has finished with a handle,
every later event — init calls from other callers included — leaves the
stored handle (and the whole loader state) unchanged, so all callers
observe the same completed engine. -/
theorem claim9_init_memoized :
    (∀ s : TutorLLMState, s.isLoading = true ∨ s.isReady = true → initStep s = (s, false)) ∧
    (∀ (evs : List LLMEvent) (handle : String),
      (llmRun initialTutorLLM evs).isReady = true →
      (llmRun initialTutorLLM evs).engine = some handle →
      ∀ evs₂, llmRun (llmRun initialTutorLLM evs) evs₂ = llmRun initialTutorLLM evs ∧
        (llmRun (llmRun initialTutorLLM evs) evs₂).engine = some handle) := by
  constructor
  · intro s hs
    unfold initStep
    rcases hs with h | h <;> simp [h]
  · intro evs handle hr he evs₂
    have hl : (llmRun initialTutorLLM evs).isLoading = false :=
      llmRun_invar (by intro h; rfl) evs hr
    have hfix := llmRun_ready_fixed hr hl evs₂
    exact ⟨hfix, by rw [hfix, he]⟩

/-- C9 witness: after one load completes with handle `engine0`, a
further init call is a no-op, and a later init event leaves the engine
handle untouched. -/
theorem claim9_witness :
    initStep { engine := some "engine0", isLoading := false, isReady := true }
      = ({ engine := some "engine0", isLoading := false, isReady := true }, false) ∧
    llmRun (llmRun initialTutorLLM [.initCall, .loadSuccess "engine0"]) [.initCall]
      = llmRun initialTutorLLM [.initCall, .loadSuccess "engine0"] :=
  ⟨claim9_init_memoized.1 _ (Or.inr rfl),
    (claim9_init_memoized.2 [.initCall, .loadSuccess "engine0"] "engine0" rfl rfl [.initCall]).1⟩

end TutorFlow
